import Mathlib

/-!
Verification of the signal-generation core of the crypto dashboard
(`script.js`, second variant: the one the specification's component design
describes — `AIFallbackEngine`, `fetchWithRetry`, `getCache`/`setCache`,
`callHuggingFace`, `generateSignal`).

Modelling conventions:
* JavaScript numbers are modelled as exact rationals (`ℚ`); IEEE-754 rounding
  is abstracted away.  A possibly-`undefined`/NaN number is `Option ℚ`
  (`none` = undefined or NaN: every comparison on it is `false`, arithmetic
  propagates it).
* Parsed JSON payloads are the inductive `Json`; `JSON.parse` is modelled by
  `parseJson` (objects, arrays, strings with the common escapes, decimal
  numbers, `true`/`false`/`null` — the fragment the program exchanges).
* The mutable `STATE.cache` / `STATE.signals` maps are association lists
  threaded explicitly; `Date.now()` is an explicit `now : ℤ` argument.
* Network I/O is an oracle argument: each attempt's outcome is given by a
  function from the attempt index.
-/

namespace CryptoDash

/-- A JavaScript number that may be `undefined` (or NaN): `none` compares
`false` under every relational operator and poisons arithmetic. -/
abbrev JQ := Option ℚ

/-- JS `<` on possibly-undefined numbers: any comparison with
`undefined`/NaN is `false`. -/
def jlt (a b : JQ) : Bool :=
  match a, b with
  | some x, some y => decide (x < y)
  | _, _ => false

/-- JS `>` on possibly-undefined numbers. -/
def jgt (a b : JQ) : Bool := jlt b a

/-- JS multiplication: `undefined * x` is NaN (kept as `none`). -/
def jmul (a b : JQ) : JQ :=
  match a, b with
  | some x, some y => some (x * y)
  | _, _ => none

mutual

/-- Parsed JSON values (the payloads the fetch layer caches and the remote
inference endpoint returns).  Arrays and object field lists are the mutual
inductives `JsonList` / `JsonFields` (isomorphic to lists, which lets
equality be decidable). -/
inductive Json where
  | null
  | bool (b : Bool)
  | num (q : ℚ)
  | str (s : String)
  | arr (elems : JsonList)
  | obj (fields : JsonFields)
deriving DecidableEq

inductive JsonList where
  | nil
  | cons (hd : Json) (tl : JsonList)
deriving DecidableEq

inductive JsonFields where
  | nil
  | cons (k : String) (v : Json) (tl : JsonFields)
deriving DecidableEq

end

/-- Build a `JsonList` from a list. -/
def JsonList.ofList : List Json → JsonList
  | [] => .nil
  | x :: xs => .cons x (JsonList.ofList xs)

/-- Build `JsonFields` from a list of key-value pairs. -/
def JsonFields.ofList : List (String × Json) → JsonFields
  | [] => .nil
  | (k, v) :: xs => .cons k v (JsonFields.ofList xs)

/-- JS truthiness of a JSON value (`null`, `false`, `0` and `""` are falsy;
objects and arrays are always truthy). -/
def jsTruthy : Json → Bool
  | .null => false
  | .bool b => b
  | .num q => decide (q ≠ 0)
  | .str s => decide (s ≠ "")
  | .arr _ => true
  | .obj _ => true

/-- Field access on a parsed JSON object: the last binding of a key wins,
as in `JSON.parse` / JS property semantics. -/
def lookupField (fs : JsonFields) (k : String) : Option Json :=
  match fs with
  | .nil => none
  | .cons k' v tl =>
    match lookupField tl k with
    | some r => some r
    | none => if k' = k then some v else none

/-! ### A model of `JSON.parse`

Fuel-indexed recursive-descent parser over the character list of the input.
`JSON.parse` succeeds only if the whole string is consumed, which
`parseJson` enforces.  Unicode `\uXXXX` escapes and exponent notation are
not modelled (none of the payloads this program exchanges use them). -/

/-- Skip JSON whitespace. -/
def skipWs : List Char → List Char
  | [] => []
  | c :: cs => if c = ' ' ∨ c = '\n' ∨ c = '\t' ∨ c = '\r' then skipWs cs else c :: cs

/-- Body of a JSON string literal (after the opening quote), with the common
escapes; returns the decoded characters and the rest after the closing
quote. -/
def parseChars : ℕ → List Char → Option (List Char × List Char)
  | 0, _ => none
  | _, [] => none
  | fuel + 1, c :: cs =>
    if c = '"' then some ([], cs)
    else if c = '\\' then
      match cs with
      | [] => none
      | e :: cs' =>
        let d? : Option Char :=
          if e = '"' then some '"'
          else if e = '\\' then some '\\'
          else if e = '/' then some '/'
          else if e = 'n' then some '\n'
          else if e = 't' then some '\t'
          else if e = 'r' then some '\r'
          else none
        match d? with
        | none => none
        | some d =>
          match parseChars fuel cs' with
          | some (s, rest) => some (d :: s, rest)
          | none => none
    else
      match parseChars fuel cs with
      | some (s, rest) => some (c :: s, rest)
      | none => none

/-- Leading decimal digits of the input, as a list of digit values. -/
def takeDigits : List Char → List ℕ × List Char
  | [] => ([], [])
  | c :: cs =>
    if c.isDigit then
      let p := takeDigits cs
      ((c.toNat - 48) :: p.1, p.2)
    else ([], c :: cs)

/-- Digit list to the natural number it denotes. -/
def natOfDigits (ds : List ℕ) : ℕ := ds.foldl (fun a d => a * 10 + d) 0

/-- A JSON number: optional minus sign, integer part, optional fraction. -/
def parseNumber (cs : List Char) : Option (ℚ × List Char) :=
  let sp : Bool × List Char :=
    match cs with
    | c :: rest => if c = '-' then (true, rest) else (false, cs)
    | [] => (false, cs)
  match takeDigits sp.2 with
  | ([], _) => none
  | (ds, cs2) =>
    let ip : ℚ := (natOfDigits ds : ℚ)
    let fq : ℚ × List Char :=
      match cs2 with
      | '.' :: cs3 =>
        match takeDigits cs3 with
        | ([], _) => (ip, cs2)
        | (fs, rest) => (ip + (natOfDigits fs : ℚ) / ((10 : ℚ) ^ fs.length), rest)
      | _ => (ip, cs2)
    some (if sp.1 then -fq.1 else fq.1, fq.2)

mutual

/-- One JSON value, by first significant character. -/
def parseVal : ℕ → List Char → Option (Json × List Char)
  | 0, _ => none
  | fuel + 1, cs =>
    match skipWs cs with
    | [] => none
    | c :: rest =>
      if c = '{' then
        match skipWs rest with
        | '}' :: rest2 => some (.obj .nil, rest2)
        | rest2 => parseMembers fuel rest2 []
      else if c = '[' then
        match skipWs rest with
        | ']' :: rest2 => some (.arr .nil, rest2)
        | rest2 => parseItems fuel rest2 []
      else if c = '"' then
        match parseChars (fuel + 1) rest with
        | some (s, rest2) => some (.str (List.asString s), rest2)
        | none => none
      else if c = 't' then
        match rest with
        | 'r' :: 'u' :: 'e' :: rest2 => some (.bool true, rest2)
        | _ => none
      else if c = 'f' then
        match rest with
        | 'a' :: 'l' :: 's' :: 'e' :: rest2 => some (.bool false, rest2)
        | _ => none
      else if c = 'n' then
        match rest with
        | 'u' :: 'l' :: 'l' :: rest2 => some (.null, rest2)
        | _ => none
      else
        match parseNumber (c :: rest) with
        | some (q, rest2) => some (.num q, rest2)
        | none => none

/-- Members of an object, after at least one key is known to follow. -/
def parseMembers : ℕ → List Char → List (String × Json) → Option (Json × List Char)
  | 0, _, _ => none
  | fuel + 1, cs, acc =>
    match skipWs cs with
    | '"' :: rest =>
      match parseChars (fuel + 1) rest with
      | none => none
      | some (k, rest2) =>
        match skipWs rest2 with
        | ':' :: rest3 =>
          match parseVal fuel rest3 with
          | none => none
          | some (v, rest4) =>
            match skipWs rest4 with
            | ',' :: rest5 => parseMembers fuel rest5 (acc ++ [(List.asString k, v)])
            | '}' :: rest5 => some (.obj (JsonFields.ofList (acc ++ [(List.asString k, v)])), rest5)
            | _ => none
        | _ => none
    | _ => none

/-- Items of an array, after at least one item is known to follow. -/
def parseItems : ℕ → List Char → List Json → Option (Json × List Char)
  | 0, _, _ => none
  | fuel + 1, cs, acc =>
    match parseVal fuel cs with
    | none => none
    | some (v, rest) =>
      match skipWs rest with
      | ',' :: rest2 => parseItems fuel rest2 (acc ++ [v])
      | ']' :: rest2 => some (.arr (JsonList.ofList (acc ++ [v])), rest2)
      | _ => none

end

/-- Model of `JSON.parse`: parse one value and require the whole input consumed. -/
def parseJson (s : String) : Option Json :=
  match parseVal (2 * s.data.length + 16) s.data with
  | some (j, rest) => if skipWs rest = [] then some j else none
  | none => none

/-! ### The response-text brace match

`text.match(/\{[\s\S]*\}/)` matches, greedily, from the first `'{'` to the
last `'}'` of the text (when the first `'{'` precedes the last `'}'`);
otherwise there is no match. -/

/-- Index of the last occurrence of `c`, if any. -/
def lastIdxOf (c : Char) (l : List Char) : Option ℕ :=
  (l.reverse.findIdx? (· = c)).map (fun k => l.length - 1 - k)

/-- The substring matched by the greedy regex `/\{[\s\S]*\}/`:
from the first `'{'` to the last `'}'`. -/
def jsonMatchList (l : List Char) : Option (List Char) :=
  match l.findIdx? (· = '{'), lastIdxOf '}' l with
  | some i, some j => if i < j then some ((l.drop i).take (j - i + 1)) else none
  | _, _ => none

/-- String-level version of `jsonMatchList`. -/
def jsonMatchStr (s : String) : Option String :=
  (jsonMatchList s.data).map List.asString

/-- Extraction of the embedded object from the generated text:
regex match, then `JSON.parse` of the matched substring. -/
def extractFromText (text : String) : Option Json :=
  (jsonMatchStr text).bind parseJson

/-! ### Configuration constants (the `CONFIG` object) -/

def CONFIG_CACHE_TTL : ℤ := 30000

def CONFIG_MAX_RETRIES : ℕ := 3

/-! ### Cache layer (`getCache` / `setCache` over `STATE.cache`) -/

/-- One cache entry: the parsed payload and the `Date.now()` stamp. -/
structure CacheItem where
  data : Json
  timestamp : ℤ
deriving DecidableEq

/-- Lookup in the style of `Map.get` in an association list (one binding per key). -/
def assocGet {α : Type} : List (String × α) → String → Option α
  | [], _ => none
  | (k', v) :: rest, k => if k' = k then some v else assocGet rest k

/-- Overwrite semantics of `Map.set`: replace the binding for the key, or append a new one. -/
def assocSet {α : Type} : List (String × α) → String → α → List (String × α)
  | [], k, v => [(k, v)]
  | (k', v') :: rest, k, v =>
    if k' = k then (k, v) :: rest else (k', v') :: assocSet rest k v

/-- Deletion semantics of `Map.delete`: remove the binding for the key. -/
def assocDel {α : Type} : List (String × α) → String → List (String × α)
  | [], _ => []
  | (k', v') :: rest, k =>
    if k' = k then assocDel rest k else (k', v') :: assocDel rest k

/-- The `STATE.cache` map. -/
abbrev Cache := List (String × CacheItem)

/-- Model of `getCache(key)` at time `now`: absent if no entry; if the entry is older
than the TTL (strictly: `now - timestamp > TTL`), delete it and report
absent; otherwise return its payload.  Returns the (possibly mutated)
cache alongside the result. -/
def getCache (c : Cache) (k : String) (now : ℤ) : Option Json × Cache :=
  match assocGet c k with
  | none => (none, c)
  | some item =>
    if now - item.timestamp > CONFIG_CACHE_TTL then (none, assocDel c k)
    else (some item.data, c)

/-- Model of `setCache(key, data)`: overwrite, stamping the current time. -/
def setCache (c : Cache) (k : String) (d : Json) (now : ℤ) : Cache :=
  assocSet c k ⟨d, now⟩

/-! ### Resilient fetch (`fetchWithRetry`) -/

/-- Outcome of one underlying `fetch` attempt: a parsed payload, a non-OK
HTTP status (which the code turns into a thrown `HTTP <status>` error), or a
rejection (network failure / the 5-second abort). -/
inductive FetchOutcome where
  | ok (d : Json)
  | httpErr (status : ℕ)
  | netFail
deriving DecidableEq

/-- The error finally thrown out of `fetchWithRetry`. -/
inductive FetchErr where
  | offline
  | http (status : ℕ)
  | net
deriving DecidableEq

/-- The error a failed attempt throws. -/
def errOf : FetchOutcome → FetchErr
  | .ok _ => .net
  | .httpErr s => .http s
  | .netFail => .net

/-- JS truthiness of the value `getCache` returned (`null` on a miss). -/
def truthyOpt : Option Json → Bool
  | some v => jsTruthy v
  | none => false

/-- Whether a fetch attempt succeeded. -/
def isOkOutcome : FetchOutcome → Bool
  | .ok _ => true
  | .httpErr _ => false
  | .netFail => false

/-- Model of `fetchWithRetry(url, options, retries)`.  The cache key is the opaque
`key`; `fetchAt i` / `nowAt i` give the `fetch` outcome and `Date.now()`
reading of the i-th attempt.  Returns the result, the final cache, and how
many network calls were issued.  Structure of the source: return the cached
value if truthy; throw `Offline` when `!STATE.isOnline`; otherwise fetch,
cache and return the payload on success; on a failure retry (after a linear
backoff, irrelevant to the result) while `retries > 0 && STATE.isOnline`,
else rethrow the attempt's error. -/
def fetchWithRetry (fetchAt : ℕ → FetchOutcome) (nowAt : ℕ → ℤ) (isOnline : Bool)
    (key : String) (attempt : ℕ) (retries : ℕ) (cache : Cache) :
    Except FetchErr Json × Cache × ℕ :=
  let g := getCache cache key (nowAt attempt)
  if truthyOpt g.1 then (.ok (g.1.getD .null), g.2, 0)
  else if ¬ isOnline then (.error .offline, g.2, 0)
  else
    match fetchAt attempt with
    | .ok d => (.ok d, setCache g.2 key d (nowAt attempt), 1)
    | out =>
      match retries with
      | r + 1 =>
        if isOnline then
          let res := fetchWithRetry fetchAt nowAt isOnline key (attempt + 1) r g.2
          (res.1, res.2.1, res.2.2 + 1)
        else (.error (errOf out), g.2, 1)
      | 0 => (.error (errOf out), g.2, 1)

/-! ### Data model: coin snapshots, indicators, signals -/

/-- A CoinGecko market snapshot (the fields the core reads). -/
structure CoinData where
  id : String
  name : String
  symbol : String
  current_price : ℚ
  price_change_percentage_1h_in_currency : ℚ
  price_change_percentage_24h : ℚ
  total_volume : ℚ
  market_cap : ℚ
deriving DecidableEq

/-- The MACD record of the indicator engine's output. -/
structure Macd where
  line : ℚ
  signal : ℚ
  histogram : ℚ
deriving DecidableEq

/-- Bollinger bands record. -/
structure BollingerBands where
  upper : ℚ
  middle : ℚ
  lower : ℚ
deriving DecidableEq

/-- The indicator record (`analyze_all`'s output).  The indicator
computation itself lives in `analysis.py`, outside the JavaScript core; the
signal pipeline receives this record as an input. -/
structure Indicators where
  rsi : ℚ
  macd : Macd
  bollinger_bands : BollingerBands
deriving DecidableEq

/-- Trading direction of a produced signal. -/
inductive Decision where
  | Buy
  | Sell
  | Hold
deriving DecidableEq

/-- The `next_5min_trend` field. -/
inductive Trend where
  | Up
  | Down
  | Sideways
deriving DecidableEq

/-- A signal produced by one of the two local heuristic implementations.
The `explanation` string (an informational template over `rsi`, `macd` and
the scores) is not modelled; every other field is.  Price-derived fields
are possibly-undefined JS numbers (`JQ`). -/
structure Signal where
  decision : Decision
  confidence : ℚ
  pump_probability : ℚ
  dump_probability : ℚ
  next_5min_trend : Trend
  entry_price : JQ
  exit_price : JQ
  stoploss : JQ
  take_profit : JQ
deriving DecidableEq

/-- The argument object of `AIFallbackEngine.generateSignal`: the engine
reads `data.price`, `data.change_1h`, `data.volume`, `data.market_cap` and
`data.indicators`.  The numeric fields may be `undefined` (`none`) when the
caller's object lacks them. -/
structure SigData where
  price : JQ
  change_1h : JQ
  volume : JQ
  market_cap : JQ
  indicators : Indicators
deriving DecidableEq

/-! ### `AIFallbackEngine.generateSignal` (the v2 local heuristic scorer) -/

/-- The buy/sell scores, computed exactly in the source's order:
RSI (`if/else if`), MACD (`if/else`), Bollinger (`if/else if`),
1h momentum (`if/else if`), volume-vs-market-cap (both scores). -/
def scoresOf (data : SigData) : ℕ × ℕ :=
  let ind := data.indicators
  let bb := ind.bollinger_bands
  let s1 : ℕ × ℕ :=
    if ind.rsi < 30 then (3, 0)
    else if ind.rsi > 70 then (0, 3)
    else (0, 0)
  let s2 : ℕ × ℕ :=
    if ind.macd.histogram > 0 then (s1.1 + 2, s1.2) else (s1.1, s1.2 + 2)
  let s3 : ℕ × ℕ :=
    if jlt data.price (some bb.lower) then (s2.1 + 2, s2.2)
    else if jgt data.price (some bb.upper) then (s2.1, s2.2 + 2)
    else s2
  let s4 : ℕ × ℕ :=
    if jgt data.change_1h (some (1 / 2)) then (s3.1 + 1, s3.2)
    else if jlt data.change_1h (some (-(1 / 2))) then (s3.1, s3.2 + 1)
    else s3
  if jgt data.volume (jmul data.market_cap (some (5 / 100))) then (s4.1 + 1, s4.2 + 1)
  else s4

/-- Model of `AIFallbackEngine.generateSignal`.  `rand` is the `Math.random()` draw
(`strength = rand * 0.3 + 0.6`). -/
def aiFallbackSignal (data : SigData) (rand : ℚ) : Signal :=
  let scores := scoresOf data
  let buyScore := scores.1
  let sellScore := scores.2
  let decision : Decision :=
    if buyScore ≥ 5 ∧ buyScore > sellScore then .Buy
    else if sellScore ≥ 5 ∧ sellScore > buyScore then .Sell
    else .Hold
  let confidence : ℚ :=
    if buyScore ≥ 5 ∧ buyScore > sellScore then min 90 (50 + (buyScore : ℚ) * 8)
    else if sellScore ≥ 5 ∧ sellScore > buyScore then min 90 (50 + (sellScore : ℚ) * 8)
    else 50
  let strength : ℚ := rand * (3 / 10) + 6 / 10
  let price := data.price
  { decision := decision
    confidence := confidence
    pump_probability := if decision = .Buy then strength else (1 - strength) * (3 / 10)
    dump_probability := if decision = .Sell then strength else (1 - strength) * (3 / 10)
    next_5min_trend :=
      if decision = .Buy then .Up else if decision = .Sell then .Down else .Sideways
    entry_price := price
    exit_price := if decision = .Buy then jmul price (some (102 / 100)) else jmul price (some (98 / 100))
    stoploss := if decision = .Buy then jmul price (some (99 / 100)) else jmul price (some (101 / 100))
    take_profit := if decision = .Buy then jmul price (some (103 / 100)) else jmul price (some (97 / 100)) }

/-! ### `fallbackHeuristicSignal` (the v1 local heuristic) -/

/-- Model of `fallbackHeuristicSignal(coinData, indicators)`.  Reads
`coinData.current_price` and the indicator record.  `bbPosition` is a real
division; in ℚ division by zero yields 0 where JS would yield ±∞/NaN, so
statements that depend on `bbPosition`'s value are only asserted for
non-degenerate bands (`lower ≠ upper`). -/
def fallbackHeuristicSignal (coin : CoinData) (ind : Indicators) : Signal :=
  let rsi := ind.rsi
  let macd := ind.macd.histogram
  let bb := ind.bollinger_bands
  let price := coin.current_price
  let bbPosition : ℚ := (price - bb.lower) / (bb.upper - bb.lower)
  let dc : Decision × ℚ :=
    if rsi < 30 ∧ macd > 0 ∧ bbPosition < 3 / 10 then (.Buy, 75)
    else if rsi > 70 ∧ macd < 0 ∧ bbPosition > 7 / 10 then (.Sell, 75)
    else (.Hold, 50)
  let decision := dc.1
  { decision := decision
    confidence := dc.2
    pump_probability := if decision = .Buy then 7 / 10 else 3 / 10
    dump_probability := if decision = .Sell then 7 / 10 else 3 / 10
    next_5min_trend :=
      if decision = .Buy then .Up else if decision = .Sell then .Down else .Sideways
    entry_price := some price
    exit_price := some (if decision = .Buy then price * (102 / 100) else price * (98 / 100))
    stoploss := some (if decision = .Buy then price * (99 / 100) else price * (101 / 100))
    take_profit := some (if decision = .Buy then price * (103 / 100) else price * (97 / 100)) }

/-! ### The remote inference call (`callHuggingFace`, v2) -/

/-- The remote endpoint's behaviour for the single inference request:
either the `fetch` promise rejects (network failure / timeout), or an HTTP
response with a status and a raw body text arrives. -/
inductive RemoteResp where
  | fail
  | resp (status : ℕ) (body : String)
deriving DecidableEq

/-- Evaluation of `data[0]?.generated_text || ''` for the parsed response body `data`.
Indexing a non-array is modelled as yielding `undefined` (so the result is
`''`); a missing or falsy `generated_text` also gives `''`.  A truthy
non-string `generated_text` would make the subsequent `.match` call throw a
`TypeError` — modelled as `none` (the surrounding `try` turns it into a
`null` result). -/
def generatedTextOf : Json → Option String
  | .arr (.cons first _) =>
    match first with
    | .obj fs =>
      match lookupField fs "generated_text" with
      | some (.str s) => some s
      | some v => if jsTruthy v then none else some ""
      | none => some ""
    | _ => some ""
  | _ => some ""

/-- Model of `callHuggingFace(prompt)` (v2): a single `fetch` of the inference
endpoint — no retry and no cache.  A 429 status returns `null` immediately;
any other non-2xx status throws (caught: `null`); otherwise the body is
JSON-parsed, `generated_text` extracted, the greedy brace regex applied and
the match `JSON.parse`d.  Every failure on the way yields `null`. -/
def callHuggingFace : RemoteResp → Option Json
  | .fail => none
  | .resp status body =>
    if status = 429 then none
    else if ¬ (200 ≤ status ∧ status ≤ 299) then none
    else
      match parseJson body with
      | none => none
      | some data =>
        match generatedTextOf data with
        | none => none
        | some text =>
          match jsonMatchStr text with
          | none => none
          | some s => parseJson s

/-! ### The v2 signal pipeline (`generateSignal`) -/

/-- The object `{ ...coinData, indicators }` the v2 `generateSignal` hands
to `AIFallbackEngine.generateSignal`.  A CoinGecko snapshot has the fields
`current_price`, `price_change_percentage_1h_in_currency`, `total_volume`
and `market_cap`, but no `price`, `change_1h` or `volume` key — so the
engine's reads of `data.price`, `data.change_1h` and `data.volume` yield
`undefined` (`none`); only `data.market_cap` is present. -/
def spreadCoinData (coin : CoinData) (ind : Indicators) : SigData :=
  { price := none
    change_1h := none
    volume := none
    market_cap := some coin.market_cap
    indicators := ind }

/-- What `STATE.signals` stores for a coin: either the remote response's
parsed object, spread as-is, or a local heuristic `Signal` (the added
`coin`/`symbol` display fields are not modelled). -/
inductive StoredSig where
  | ofRemote (j : Json)
  | ofLocal (s : Signal)
deriving DecidableEq

/-- The `STATE.signals` map. -/
abbrev SigMap := List (String × StoredSig)

/-- The `confidence` the stored signal exposes (used e.g. by the alert
hook): the heuristic's field, or the remote object's `confidence` member
when it is a number. -/
def StoredSig.confidenceOf : StoredSig → Option ℚ
  | .ofRemote (.obj fs) =>
    match lookupField fs "confidence" with
    | some (.num q) => some q
    | _ => none
  | .ofRemote _ => none
  | .ofLocal s => some s.confidence

/-- The `decision` member of the stored signal, as a raw JSON value for
remote signals. -/
def StoredSig.decisionOf : StoredSig → Option Json
  | .ofRemote (.obj fs) => lookupField fs "decision"
  | .ofRemote _ => none
  | .ofLocal s =>
    some (.str (match s.decision with
      | .Buy => "Buy"
      | .Sell => "Sell"
      | .Hold => "Hold"))

/-- Model of `generateSignal(coinData)` (v2), with its effect on `STATE.signals`.
Oracle inputs: the fetched `priceHistory` (already mapped to prices), the
indicator record `ind` that `calculateIndicators` produced, the online
flag, the remote endpoint's behaviour and the `Math.random()` draw.
Under 30 price samples the function throws `Insufficient data`; the outer
`catch` swallows it, so the map is left untouched and no signal is
produced (returned as `none`).  Otherwise the remote response is consulted
(only when online) and, when it yields `null`, the local engine supplies
the signal; the result is stored under the coin id (overwriting) and
returned.  The function itself never throws: `ParseError`-like and
rate-limit conditions are absorbed inside `callHuggingFace`. -/
def generateSignalV2 (coin : CoinData) (priceHistory : List ℚ) (ind : Indicators)
    (isOnline : Bool) (remote : RemoteResp) (rand : ℚ) (signals : SigMap) :
    SigMap × Option StoredSig :=
  if priceHistory.length < 30 then (signals, none)
  else
    let remoteSig : Option Json := if isOnline then callHuggingFace remote else none
    let stored : StoredSig :=
      match remoteSig with
      | some j => .ofRemote j
      | none => .ofLocal (aiFallbackSignal (spreadCoinData coin ind) rand)
    (assocSet signals coin.id stored, some stored)

/-! ### Spec-side scorer (the documented table, for claim C1)

These definitions follow the specification's words, to be compared with
`scoresOf`/`aiFallbackSignal`: each table row contributes independently. -/

/-- Spec table, buy side: RSI<30 → +3; MACD histogram>0 → +2; price below
the lower band → +2; 1h change above 0.5 → +1; volume above 5% of market
cap → +1. -/
def specBuyScore (price change1h volume marketCap : ℚ) (ind : Indicators) : ℕ :=
  (if ind.rsi < 30 then 3 else 0)
  + (if ind.macd.histogram > 0 then 2 else 0)
  + (if price < ind.bollinger_bands.lower then 2 else 0)
  + (if change1h > 1 / 2 then 1 else 0)
  + (if volume > marketCap * (5 / 100) then 1 else 0)

/-- Spec table, sell side: RSI>70 → +3; MACD histogram not >0 → +2; price
above the upper band → +2; 1h change below −0.5 → +1; volume above 5% of
market cap → +1. -/
def specSellScore (price change1h volume marketCap : ℚ) (ind : Indicators) : ℕ :=
  (if ind.rsi > 70 then 3 else 0)
  + (if ind.macd.histogram > 0 then 0 else 2)
  + (if price > ind.bollinger_bands.upper then 2 else 0)
  + (if change1h < -(1 / 2) then 1 else 0)
  + (if volume > marketCap * (5 / 100) then 1 else 0)

/-- Spec decision rule: Buy iff buyScore≥5 and buyScore>sellScore; Sell iff
sellScore≥5 and sellScore>buyScore; else Hold. -/
def specDecision (buyScore sellScore : ℕ) : Decision :=
  if buyScore ≥ 5 ∧ buyScore > sellScore then .Buy
  else if sellScore ≥ 5 ∧ sellScore > buyScore then .Sell
  else .Hold

/-- Spec confidence rule: min(90, 50 + 8×winningScore) when a decision is
made, else 50. -/
def specConfidence (buyScore sellScore : ℕ) : ℚ :=
  match specDecision buyScore sellScore with
  | .Buy => min 90 (50 + 8 * (buyScore : ℚ))
  | .Sell => min 90 (50 + 8 * (sellScore : ℚ))
  | .Hold => 50

/-! ## Helper lemmas (shared) -/

/-- Deleting a key removes its binding. -/
theorem assocGet_assocDel {α : Type} (m : List (String × α)) (k : String) :
    assocGet (assocDel m k) k = none := by
  induction m with
  | nil => rfl
  | cons hd tl ih =>
    obtain ⟨k', v'⟩ := hd
    by_cases h : k' = k
    · simpa [assocDel, h] using ih
    · simp [assocDel, h, assocGet, ih]

/-- Setting a key overwrites its binding, whatever was there before. -/
theorem assocGet_assocSet {α : Type} (m : List (String × α)) (k : String) (v : α) :
    assocGet (assocSet m k v) k = some v := by
  induction m with
  | nil => simp [assocSet, assocGet]
  | cons hd tl ih =>
    obtain ⟨k', v'⟩ := hd
    by_cases h : k' = k
    · simp [assocSet, h, assocGet]
    · simp [assocSet, h, assocGet, ih]

/-- A cache read that did not return a truthy value leaves the key without
a truthy value for every later read as well (nothing on the failure path
writes to the cache). -/
theorem truthy_miss_propagates (c : Cache) (k : String) (t t' : ℤ)
    (h : truthyOpt (getCache c k t).1 = false) :
    truthyOpt (getCache (getCache c k t).2 k t').1 = false := by
  cases hg : assocGet c k with
  | none => simp [getCache, hg, truthyOpt]
  | some item =>
    by_cases hexp : t - item.timestamp > CONFIG_CACHE_TTL
    · simp [getCache, hg, hexp, assocGet_assocDel, truthyOpt]
    · simp only [getCache, hg, if_neg hexp] at h ⊢
      by_cases hexp' : t' - item.timestamp > CONFIG_CACHE_TTL
      · simp [if_pos hexp', truthyOpt]
      · simpa [if_neg hexp'] using h

/-! ## Claim C7 — cache `get` absence -/

/-- C7 counterexample.  The claim says `get(k)` is absent exactly when no
entry exists or `now - entry.timestamp ≥ TTL`.  At `now - timestamp = TTL`
(30000) the code's strict `>` comparison keeps the entry: `get` returns the
payload, not absent. -/
theorem C7_counterexample :
    (30000 : ℤ) - 0 ≥ CONFIG_CACHE_TTL ∧
    (getCache [("k", ⟨Json.str "x", 0⟩)] "k" 30000).1 = some (Json.str "x") := by
  constructor
  · decide
  · rfl

/-- C7 (amended): `get(k)` returns absent exactly when no entry exists for
`k` or when `now - entry.timestamp > TTL` (strictly); in the expired case
the entry is deleted as a side effect, and an immediately repeated `get(k)`
is also absent. -/
theorem C7_get_absent_iff_strict (c : Cache) (k : String) (now : ℤ) :
    ((getCache c k now).1 = none ↔
      assocGet c k = none ∨
        ∃ item, assocGet c k = some item ∧ now - item.timestamp > CONFIG_CACHE_TTL)
    ∧ (∀ item, assocGet c k = some item → now - item.timestamp > CONFIG_CACHE_TTL →
        assocGet (getCache c k now).2 k = none)
    ∧ ((getCache c k now).1 = none → (getCache (getCache c k now).2 k now).1 = none) := by
  refine ⟨?_, ?_, ?_⟩
  · cases hg : assocGet c k with
    | none => simp [getCache, hg]
    | some item =>
      by_cases hexp : now - item.timestamp > CONFIG_CACHE_TTL
      · simp [getCache, hg, hexp]
      · simp only [getCache, hg, if_neg hexp]
        constructor
        · intro h; exact absurd h (by simp)
        · rintro (h | ⟨item', hi, he⟩)
          · exact absurd h (by simp)
          · rw [Option.some_inj.mp hi] at hexp; exact absurd he hexp
  · intro item hi hexp
    simp [getCache, hi, hexp, assocGet_assocDel]
  · intro h
    cases hg : assocGet c k with
    | none => simp [getCache, hg]
    | some item =>
      by_cases hexp : now - item.timestamp > CONFIG_CACHE_TTL
      · simp [getCache, hg, hexp, assocGet_assocDel]
      · rw [show (getCache c k now).1 = some item.data by
            simp [getCache, hg, hexp]] at h
        exact absurd h (by simp)

/-- C7 witness: for an entry stamped 0 read at time 40000 (elapsed 40000 >
TTL = 30000), `get` is absent, the entry is deleted, and the repeated `get`
is also absent. -/
theorem C7_witness :
    (getCache [("k", ⟨Json.str "x", 0⟩)] "k" 40000).1 = none
    ∧ assocGet (getCache [("k", ⟨Json.str "x", 0⟩)] "k" 40000).2 "k" = none
    ∧ (getCache (getCache [("k", ⟨Json.str "x", 0⟩)] "k" 40000).2 "k" 40000).1 = none := by
  have h := C7_get_absent_iff_strict [("k", ⟨Json.str "x", 0⟩)] "k" 40000
  have habs : (getCache [("k", ⟨Json.str "x", 0⟩)] "k" 40000).1 = none :=
    h.1.mpr (Or.inr ⟨(⟨Json.str "x", 0⟩ : CacheItem), rfl, by decide⟩)
  exact ⟨habs, h.2.1 (⟨Json.str "x", 0⟩ : CacheItem) rfl (by decide), h.2.2 habs⟩

/-! ## Claim C9 — cache round trip and cached fetch -/

/-- C9 counterexample.  The claim asserts that for every value `v`,
`fetchWithRetry` with a valid cache entry returns the cached value with no
network call.  For the falsy payload `null` (a legitimate `response.json()`
result), the `if (cached)` truthiness test treats the valid entry as a
miss: a network call is issued (call count 1, not 0) and the network
payload, not the cached one, is returned. -/
theorem C9_counterexample :
    (getCache (setCache [] "k" Json.null 0) "k" 0).1 = some Json.null
    ∧ fetchWithRetry (fun _ => .ok (Json.str "fresh")) (fun _ => 0) true "k" 0 3
        (setCache [] "k" Json.null 0) =
      (.ok (Json.str "fresh"), [("k", ⟨Json.str "fresh", 0⟩)], 1)
    ∧ (1 : ℕ) ≠ 0 := by
  refine ⟨rfl, rfl, by decide⟩

/-- C9 (amended): `set(k,v)` followed by `get(k)` within the TTL returns
`v`, and `set` always overwrites, stamping the write time — for every
value `v`; but `fetchWithRetry` short-circuits to the cached value (with
zero network calls) only when `v` is truthy (`if (cached)`), in which case
it leaves the cache untouched. -/
theorem C9_set_get_and_cached_fetch (c : Cache) (k : String) (v : Json) (t t' : ℤ)
    (hfresh : t' - t < CONFIG_CACHE_TTL) :
    ((getCache (setCache c k v t) k t').1 = some v
      ∧ assocGet (setCache c k v t) k = some ⟨v, t⟩)
    ∧ (jsTruthy v = true →
        ∀ (fetchAt : ℕ → FetchOutcome) (nowAt : ℕ → ℤ) (isOnline : Bool)
          (attempt retries : ℕ), nowAt attempt = t' →
          fetchWithRetry fetchAt nowAt isOnline k attempt retries (setCache c k v t) =
            (.ok v, setCache c k v t, 0)) := by
  have hget : getCache (setCache c k v t) k t' = (some v, setCache c k v t) := by
    simp [getCache, setCache, assocGet_assocSet]
    omega
  refine ⟨⟨by rw [hget], assocGet_assocSet c k ⟨v, t⟩⟩, ?_⟩
  intro htruthy fetchAt nowAt isOnline attempt retries hnow
  rw [fetchWithRetry, hnow, hget]
  simp [truthyOpt, htruthy]

/-- C9 witness: a concrete truthy round trip through the theorem. -/
theorem C9_witness :
    ((getCache (setCache [] "k" (Json.str "d") 0) "k" 100).1 = some (Json.str "d")
      ∧ assocGet (setCache [] "k" (Json.str "d") 0) "k" = some ⟨Json.str "d", 0⟩)
    ∧ fetchWithRetry (fun _ => .netFail) (fun _ => 100) true "k" 0 3
        (setCache [] "k" (Json.str "d") 0) =
      (.ok (Json.str "d"), setCache [] "k" (Json.str "d") 0, 0) := by
  have h := C9_set_get_and_cached_fetch [] "k" (Json.str "d") 0 100 (by decide)
  exact ⟨h.1, h.2 (by decide) (fun _ => .netFail) (fun _ => 100) true 0 3 rfl⟩

/-! ## Claim C8 — exhausted retries -/

/-- C8 counterexample.  The claim says that when every attempt fails and a
stale cache entry is available, the stale entry is used.  With a stale
entry (stamped 0, read at 40000 > TTL) and four failing attempts
(HTTP 500), the code deletes the stale entry on the first read and
propagates the terminal error — the stale payload is never returned. -/
theorem C8_counterexample :
    assocGet ([("u", ⟨Json.str "stale", 0⟩)] : Cache) "u" = some (⟨Json.str "stale", 0⟩ : CacheItem)
    ∧ fetchWithRetry (fun _ => .httpErr 500) (fun _ => 40000) true "u" 0 3
        [("u", ⟨Json.str "stale", 0⟩)] =
      (.error (.http 500), [], 4)
    ∧ (Except.error (FetchErr.http 500) : Except FetchErr Json) ≠ .ok (Json.str "stale") := by
  refine ⟨rfl, rfl, by simp⟩

/-- C8 (amended): when the first cache read yields nothing truthy and every
attempt fails, `fetchWithRetry` issues `retries + 1` network calls and
propagates the last attempt's error — there is no stale-cache fallback
(an expired entry is deleted on read, never served). -/
theorem C8_exhausted_retries_error (fetchAt : ℕ → FetchOutcome) (nowAt : ℕ → ℤ)
    (key : String) :
    ∀ (retries attempt : ℕ) (cache : Cache),
      (∀ i, isOkOutcome (fetchAt i) = false) →
      truthyOpt (getCache cache key (nowAt attempt)).1 = false →
      (fetchWithRetry fetchAt nowAt true key attempt retries cache).1 =
          .error (errOf (fetchAt (attempt + retries)))
      ∧ (fetchWithRetry fetchAt nowAt true key attempt retries cache).2.2 = retries + 1 := by
  intro retries
  induction retries with
  | zero =>
    intro attempt cache hfail hmiss
    rw [fetchWithRetry]
    cases hout : fetchAt attempt with
    | ok d => exact absurd (hout ▸ hfail attempt) (by simp [isOkOutcome])
    | httpErr s => simp [hmiss, hout]
    | netFail => simp [hmiss, hout]
  | succ r ih =>
    intro attempt cache hfail hmiss
    have ih' := ih (attempt + 1) (getCache cache key (nowAt attempt)).2 hfail
      (truthy_miss_propagates cache key (nowAt attempt) (nowAt (attempt + 1)) hmiss)
    rw [fetchWithRetry]
    cases hout : fetchAt attempt with
    | ok d => exact absurd (hout ▸ hfail attempt) (by simp [isOkOutcome])
    | httpErr s =>
      constructor
      · simpa [hmiss, hout, show attempt + 1 + r = attempt + (r + 1) by omega] using ih'.1
      · simpa [hmiss, hout] using ih'.2
    | netFail =>
      constructor
      · simpa [hmiss, hout, show attempt + 1 + r = attempt + (r + 1) by omega] using ih'.1
      · simpa [hmiss, hout] using ih'.2

/-- C8 witness: four failing attempts against an empty cache end in the
terminal HTTP 500 error after 4 calls. -/
theorem C8_witness :
    (fetchWithRetry (fun _ => .httpErr 500) (fun _ => 0) true "u" 0 3 []).1 =
        .error (.http 500)
    ∧ (fetchWithRetry (fun _ => .httpErr 500) (fun _ => 0) true "u" 0 3 []).2.2 = 4 := by
  have h := C8_exhausted_retries_error (fun _ => .httpErr 500) (fun _ => 0) "u" 3 0 []
    (fun _ => rfl) (by decide)
  exact ⟨h.1, h.2⟩

/-! ## Claim C6 — fewer than 30 samples: no signal, map untouched -/

/-- C6: with fewer than 30 price samples the pipeline throws
`Insufficient data` (swallowed by the outer catch): the signal map is left
unchanged and no signal is produced; and this is the only case in which no
signal is produced. -/
theorem C6_insufficient_data_no_signal (coin : CoinData) (prices : List ℚ)
    (ind : Indicators) (isOnline : Bool) (remote : RemoteResp) (rand : ℚ)
    (signals : SigMap) :
    (prices.length < 30 →
      generateSignalV2 coin prices ind isOnline remote rand signals = (signals, none))
    ∧ ((generateSignalV2 coin prices ind isOnline remote rand signals).2 = none ↔
        prices.length < 30) := by
  constructor
  · intro h
    simp [generateSignalV2, h]
  · by_cases h : prices.length < 30
    · simp [generateSignalV2, h]
    · simp [generateSignalV2, h]

/-- C6 witness: an empty price history and a pre-existing entry for the
same coin id — the entry survives unchanged and no signal is returned. -/
theorem C6_witness :
    generateSignalV2 ⟨"bitcoin", "Bitcoin", "btc", 100, 0, 0, 10, 1000⟩ []
        ⟨50, ⟨0, 0, 1⟩, ⟨105, 100, 95⟩⟩ true .fail 0
        [("bitcoin", .ofRemote Json.null)] =
      ([("bitcoin", .ofRemote Json.null)], none) := by
  exact (C6_insufficient_data_no_signal _ _ _ _ _ _ _).1 (by simp)

/-! ## Claim C2 — remote failure always falls back to the heuristic -/

/-- C2: a 429 response yields `null` from the single (unretried) inference
call, as do a network failure and a body whose JSON parse fails; and
whenever the remote call yields `null`, `generateSignal` (with at least 30
samples) still produces a signal — the local heuristic's — and stores it.
The pipeline returns normally: rate-limit and parse failures are absorbed
inside `callHuggingFace` and never reach the caller. -/
theorem C2_remote_failure_uses_heuristic :
    (∀ body, callHuggingFace (.resp 429 body) = none)
    ∧ callHuggingFace .fail = none
    ∧ (∀ status body, parseJson body = none → callHuggingFace (.resp status body) = none)
    ∧ (∀ (coin : CoinData) (prices : List ℚ) (ind : Indicators) (isOnline : Bool)
        (remote : RemoteResp) (rand : ℚ) (signals : SigMap),
        30 ≤ prices.length → callHuggingFace remote = none →
        generateSignalV2 coin prices ind isOnline remote rand signals =
          (assocSet signals coin.id
            (.ofLocal (aiFallbackSignal (spreadCoinData coin ind) rand)),
           some (.ofLocal (aiFallbackSignal (spreadCoinData coin ind) rand)))) := by
  refine ⟨?_, rfl, ?_, ?_⟩
  · intro body
    simp [callHuggingFace]
  · intro status body hp
    by_cases h429 : status = 429
    · simp [callHuggingFace, h429]
    · by_cases hok : 200 ≤ status ∧ status ≤ 299
      · simp [callHuggingFace, h429, hok, hp]
      · simp [callHuggingFace, h429, hok]
  · intro coin prices ind isOnline remote rand signals hlen hnone
    have hlt : ¬ prices.length < 30 := by omega
    cases isOnline <;> simp [generateSignalV2, hlt, hnone]

/-- C2 witness: a rate-limited (HTTP 429) remote response on a 30-sample
series still yields a stored heuristic signal. -/
theorem C2_witness :
    generateSignalV2 ⟨"bitcoin", "Bitcoin", "btc", 100, 0, 0, 10, 1000⟩
        (List.replicate 30 1) ⟨50, ⟨0, 0, 1⟩, ⟨105, 100, 95⟩⟩ true
        (.resp 429 "rate limited") 0 [] =
      (assocSet []
        "bitcoin"
        (.ofLocal (aiFallbackSignal
          (spreadCoinData ⟨"bitcoin", "Bitcoin", "btc", 100, 0, 0, 10, 1000⟩
            ⟨50, ⟨0, 0, 1⟩, ⟨105, 100, 95⟩⟩) 0)),
       some (.ofLocal (aiFallbackSignal
          (spreadCoinData ⟨"bitcoin", "Bitcoin", "btc", 100, 0, 0, 10, 1000⟩
            ⟨50, ⟨0, 0, 1⟩, ⟨105, 100, 95⟩⟩) 0))) := by
  exact C2_remote_failure_uses_heuristic.2.2.2 _ _ _ _ _ _ _ (by simp)
    (C2_remote_failure_uses_heuristic.1 _)

/-! ## Projection lemmas for the v2 heuristic engine (definitional) -/

/-- The engine's confidence, written out over `scoresOf`. -/
theorem aiFallback_confidence_def (data : SigData) (rand : ℚ) :
    (aiFallbackSignal data rand).confidence =
      (if (scoresOf data).1 ≥ 5 ∧ (scoresOf data).1 > (scoresOf data).2 then
        min 90 (50 + ((scoresOf data).1 : ℚ) * 8)
      else if (scoresOf data).2 ≥ 5 ∧ (scoresOf data).2 > (scoresOf data).1 then
        min 90 (50 + ((scoresOf data).2 : ℚ) * 8)
      else 50) := rfl

/-- The engine's decision, written out over `scoresOf`. -/
theorem aiFallback_decision_def (data : SigData) (rand : ℚ) :
    (aiFallbackSignal data rand).decision =
      (if (scoresOf data).1 ≥ 5 ∧ (scoresOf data).1 > (scoresOf data).2 then .Buy
      else if (scoresOf data).2 ≥ 5 ∧ (scoresOf data).2 > (scoresOf data).1 then .Sell
      else .Hold) := rfl

/-- The engine's pump probability, in terms of its own decision. -/
theorem aiFallback_pump_def (data : SigData) (rand : ℚ) :
    (aiFallbackSignal data rand).pump_probability =
      (if (aiFallbackSignal data rand).decision = .Buy then rand * (3 / 10) + 6 / 10
      else (1 - (rand * (3 / 10) + 6 / 10)) * (3 / 10)) := rfl

/-- The engine's dump probability, in terms of its own decision. -/
theorem aiFallback_dump_def (data : SigData) (rand : ℚ) :
    (aiFallbackSignal data rand).dump_probability =
      (if (aiFallbackSignal data rand).decision = .Sell then rand * (3 / 10) + 6 / 10
      else (1 - (rand * (3 / 10) + 6 / 10)) * (3 / 10)) := rfl

/-- The engine's stop loss, in terms of its own decision. -/
theorem aiFallback_stoploss_def (data : SigData) (rand : ℚ) :
    (aiFallbackSignal data rand).stoploss =
      (if (aiFallbackSignal data rand).decision = .Buy then
        jmul data.price (some (99 / 100))
      else jmul data.price (some (101 / 100))) := rfl

/-- The engine's take profit, in terms of its own decision. -/
theorem aiFallback_tp_def (data : SigData) (rand : ℚ) :
    (aiFallbackSignal data rand).take_profit =
      (if (aiFallbackSignal data rand).decision = .Buy then
        jmul data.price (some (103 / 100))
      else jmul data.price (some (97 / 100))) := rfl

/-- The engine's exit price, in terms of its own decision. -/
theorem aiFallback_exit_def (data : SigData) (rand : ℚ) :
    (aiFallbackSignal data rand).exit_price =
      (if (aiFallbackSignal data rand).decision = .Buy then
        jmul data.price (some (102 / 100))
      else jmul data.price (some (98 / 100))) := rfl

/-! ## Claim C5 — remote-response extraction -/

/-- C5 counterexample.  The claim says an extracted object lacking a
`decision` field is treated as absent, triggering the heuristic fallback.
In the v2 pipeline the guard is only `if (!signal)`: the decision-less
object `\x7b"confidence":77\x7d` is truthy, so it is stored as the
signal — the fallback never runs. -/
theorem C5_counterexample :
    callHuggingFace
        (.resp 200 "[\x7b\"generated_text\":\"\x7b\\\"confidence\\\":77\x7d\"\x7d]") =
      some (.obj (JsonFields.ofList [("confidence", .num 77)]))
    ∧ lookupField (JsonFields.ofList [("confidence", .num 77)]) "decision" = none
    ∧ generateSignalV2 ⟨"bitcoin", "Bitcoin", "btc", 100, 0, 0, 10, 1000⟩
        (List.replicate 30 1) ⟨50, ⟨0, 0, 1⟩, ⟨105, 100, 95⟩⟩ true
        (.resp 200 "[\x7b\"generated_text\":\"\x7b\\\"confidence\\\":77\x7d\"\x7d]") 0 [] =
      ([("bitcoin", .ofRemote (.obj (JsonFields.ofList [("confidence", .num 77)])))],
       some (.ofRemote (.obj (JsonFields.ofList [("confidence", .num 77)])))) := by
  refine ⟨by decide, by decide, by decide⟩

/-- C5 (amended): the parser matches the greedy substring from the first
`'{'` to the last `'}'` of the generated text and JSON-parses it — on the
claim's example body it extracts `\x7bdecision: Buy, confidence: 77\x7d`;
a text with no opening brace yields no match and no remote result; a
`null` remote result triggers the heuristic fallback; but a successfully
extracted object is used as the signal whether or not it has a `decision`
field. -/
theorem C5_extraction_behaviour :
    (extractFromText
        "some prefix text \x7b\"decision\":\"Buy\",\"confidence\":77\x7d trailing" =
      some (.obj (JsonFields.ofList [("decision", .str "Buy"), ("confidence", .num 77)])))
    ∧ (∀ text : String, (∀ c ∈ text.data, c ≠ '{') →
        jsonMatchStr text = none ∧ extractFromText text = none)
    ∧ (∀ (coin : CoinData) (prices : List ℚ) (ind : Indicators) (remote : RemoteResp)
        (rand : ℚ) (signals : SigMap),
        30 ≤ prices.length → callHuggingFace remote = none →
        generateSignalV2 coin prices ind true remote rand signals =
          (assocSet signals coin.id
            (.ofLocal (aiFallbackSignal (spreadCoinData coin ind) rand)),
           some (.ofLocal (aiFallbackSignal (spreadCoinData coin ind) rand))))
    ∧ (∀ (coin : CoinData) (prices : List ℚ) (ind : Indicators) (remote : RemoteResp)
        (rand : ℚ) (signals : SigMap) (j : Json),
        30 ≤ prices.length → callHuggingFace remote = some j →
        generateSignalV2 coin prices ind true remote rand signals =
          (assocSet signals coin.id (.ofRemote j), some (.ofRemote j))) := by
  refine ⟨by decide, ?_, ?_, ?_⟩
  · intro text h
    have hidx : text.data.findIdx? (· = '{') = none := by
      rw [List.findIdx?_eq_none_iff]
      intro x hx
      simp [h x hx]
    constructor
    · simp [jsonMatchStr, jsonMatchList, hidx]
    · simp [extractFromText, jsonMatchStr, jsonMatchList, hidx]
  · intro coin prices ind remote rand signals hlen hnone
    have hlt : ¬ prices.length < 30 := by omega
    simp [generateSignalV2, hlt, hnone]
  · intro coin prices ind remote rand signals j hlen hsome
    have hlt : ¬ prices.length < 30 := by omega
    simp [generateSignalV2, hlt, hsome]

/-- C5 witness: a braceless body yields no match and no remote object. -/
theorem C5_witness :
    jsonMatchStr "no braces at all" = none
    ∧ extractFromText "no braces at all" = none := by
  exact C5_extraction_behaviour.2.1 "no braces at all" (by decide)

/-! ## Claim C4 — stored-signal bounds -/

/-- C4 counterexample.  The claim says every stored signal — including one
taken from the remote response — has its confidence clamped to [0,100].
A remote response carrying `confidence: 500` is stored verbatim: no
clamping happens anywhere in the pipeline. -/
theorem C4_counterexample :
    generateSignalV2 ⟨"bitcoin", "Bitcoin", "btc", 100, 0, 0, 10, 1000⟩
        (List.replicate 30 1) ⟨50, ⟨0, 0, 1⟩, ⟨105, 100, 95⟩⟩ true
        (.resp 200
          "[\x7b\"generated_text\":\"\x7b\\\"decision\\\":\\\"Buy\\\",\\\"confidence\\\":500\x7d\"\x7d]")
        0 [] =
      ([("bitcoin", .ofRemote (.obj (JsonFields.ofList
          [("decision", .str "Buy"), ("confidence", .num 500)])))],
       some (.ofRemote (.obj (JsonFields.ofList
          [("decision", .str "Buy"), ("confidence", .num 500)]))))
    ∧ StoredSig.confidenceOf (.ofRemote (.obj (JsonFields.ofList
          [("decision", .str "Buy"), ("confidence", .num 500)]))) = some 500
    ∧ ¬ ((500 : ℚ) ≤ 100) := by
  refine ⟨by decide, by decide, by decide⟩

/-- C4 (amended): heuristic-produced signals do satisfy the bounds —
decision is one of Buy/Sell/Hold (by type), confidence lies in [0,100],
pump/dump probabilities lie in [0,1] (for any `Math.random()` draw in
[0,1)), `entry_price` equals the engine's price input, and stop loss /
take profit are the fixed 1%/3% offsets oriented by the decision (below /
above entry for Buy, above / below otherwise) — but a remote response
object is stored as parsed, with no clamping or validation. -/
theorem C4_stored_signal_bounds :
    (∀ (data : SigData) (rand : ℚ), 0 ≤ rand → rand < 1 →
      (0 ≤ (aiFallbackSignal data rand).confidence
        ∧ (aiFallbackSignal data rand).confidence ≤ 100)
      ∧ (0 ≤ (aiFallbackSignal data rand).pump_probability
        ∧ (aiFallbackSignal data rand).pump_probability ≤ 1)
      ∧ (0 ≤ (aiFallbackSignal data rand).dump_probability
        ∧ (aiFallbackSignal data rand).dump_probability ≤ 1)
      ∧ (aiFallbackSignal data rand).entry_price = data.price
      ∧ ((aiFallbackSignal data rand).decision = .Buy →
          (aiFallbackSignal data rand).stoploss = jmul data.price (some (99 / 100))
          ∧ (aiFallbackSignal data rand).take_profit = jmul data.price (some (103 / 100)))
      ∧ ((aiFallbackSignal data rand).decision ≠ .Buy →
          (aiFallbackSignal data rand).stoploss = jmul data.price (some (101 / 100))
          ∧ (aiFallbackSignal data rand).take_profit = jmul data.price (some (97 / 100))))
    ∧ (∀ (coin : CoinData) (prices : List ℚ) (ind : Indicators) (remote : RemoteResp)
        (rand : ℚ) (signals : SigMap) (j : Json),
        30 ≤ prices.length → callHuggingFace remote = some j →
        generateSignalV2 coin prices ind true remote rand signals =
          (assocSet signals coin.id (.ofRemote j), some (.ofRemote j))) := by
  constructor
  · intro data rand h0 h1
    refine ⟨?_, ?_, ?_, rfl, ?_, ?_⟩
    · rw [aiFallback_confidence_def]
      split_ifs with hb hs
      · exact ⟨le_min (by norm_num) (by positivity),
          le_trans (min_le_left _ _) (by norm_num)⟩
      · exact ⟨le_min (by norm_num) (by positivity),
          le_trans (min_le_left _ _) (by norm_num)⟩
      · norm_num
    · rw [aiFallback_pump_def]
      split_ifs <;> constructor <;> linarith
    · rw [aiFallback_dump_def]
      split_ifs <;> constructor <;> linarith
    · intro hd
      rw [aiFallback_stoploss_def, aiFallback_tp_def, hd]
      simp
    · intro hd
      rw [aiFallback_stoploss_def, aiFallback_tp_def, if_neg hd, if_neg hd]
      exact ⟨rfl, rfl⟩
  · intro coin prices ind remote rand signals j hlen hsome
    have hlt : ¬ prices.length < 30 := by omega
    simp [generateSignalV2, hlt, hsome]

/-- C4 witness: the bounds at a concrete input with the draw 0. -/
theorem C4_witness :
    (0 ≤ (aiFallbackSignal ⟨some 100, some 0, some 0, some 1000,
          ⟨50, ⟨0, 0, 1⟩, ⟨105, 100, 95⟩⟩⟩ 0).confidence
      ∧ (aiFallbackSignal ⟨some 100, some 0, some 0, some 1000,
          ⟨50, ⟨0, 0, 1⟩, ⟨105, 100, 95⟩⟩⟩ 0).confidence ≤ 100)
    ∧ (0 ≤ (aiFallbackSignal ⟨some 100, some 0, some 0, some 1000,
          ⟨50, ⟨0, 0, 1⟩, ⟨105, 100, 95⟩⟩⟩ 0).pump_probability
      ∧ (aiFallbackSignal ⟨some 100, some 0, some 0, some 1000,
          ⟨50, ⟨0, 0, 1⟩, ⟨105, 100, 95⟩⟩⟩ 0).pump_probability ≤ 1) := by
  have h := C4_stored_signal_bounds.1
    ⟨some 100, some 0, some 0, some 1000, ⟨50, ⟨0, 0, 1⟩, ⟨105, 100, 95⟩⟩⟩ 0
    (by norm_num) (by norm_num)
  exact ⟨h.1, h.2.1⟩

/-! ## Projection lemmas for the v1 heuristic (definitional) -/

/-- The v1 heuristic's stop loss, in terms of its own decision. -/
theorem fallback_stoploss_def (coin : CoinData) (ind : Indicators) :
    (fallbackHeuristicSignal coin ind).stoploss =
      some (if (fallbackHeuristicSignal coin ind).decision = .Buy then
        coin.current_price * (99 / 100)
      else coin.current_price * (101 / 100)) := rfl

/-- The v1 heuristic's take profit, in terms of its own decision. -/
theorem fallback_tp_def (coin : CoinData) (ind : Indicators) :
    (fallbackHeuristicSignal coin ind).take_profit =
      some (if (fallbackHeuristicSignal coin ind).decision = .Buy then
        coin.current_price * (103 / 100)
      else coin.current_price * (97 / 100)) := rfl

/-- The v1 heuristic's exit price, in terms of its own decision. -/
theorem fallback_exit_def (coin : CoinData) (ind : Indicators) :
    (fallbackHeuristicSignal coin ind).exit_price =
      some (if (fallbackHeuristicSignal coin ind).decision = .Buy then
        coin.current_price * (102 / 100)
      else coin.current_price * (98 / 100)) := rfl

/-- The v1 heuristic's trend, in terms of its own decision. -/
theorem fallback_trend_def (coin : CoinData) (ind : Indicators) :
    (fallbackHeuristicSignal coin ind).next_5min_trend =
      (if (fallbackHeuristicSignal coin ind).decision = .Buy then .Up
      else if (fallbackHeuristicSignal coin ind).decision = .Sell then .Down
      else .Sideways) := rfl

/-- The v2 engine's trend, in terms of its own decision. -/
theorem aiFallback_trend_def (data : SigData) (rand : ℚ) :
    (aiFallbackSignal data rand).next_5min_trend =
      (if (aiFallbackSignal data rand).decision = .Buy then .Up
      else if (aiFallbackSignal data rand).decision = .Sell then .Down
      else .Sideways) := rfl

/-! ## Claim C1 — the scorer computes the documented table -/

set_option maxHeartbeats 1000000 in
/-- C1: for every defined coin snapshot (price, 1h change, volume, market
cap) and indicator record with a well-formed band (`lower ≤ upper`), the
v2 scorer's buy/sell scores equal the documented table's independent row
sums, its decision follows the Buy-iff/Sell-iff/Hold rule, and its
confidence is min(90, 50 + 8 × winningScore) when a decision is made and
50 otherwise. -/
theorem C1_scorer_matches_documented_table (p c v m : ℚ) (ind : Indicators) (rand : ℚ)
    (hb : ind.bollinger_bands.lower ≤ ind.bollinger_bands.upper) :
    scoresOf ⟨some p, some c, some v, some m, ind⟩ =
      (specBuyScore p c v m ind, specSellScore p c v m ind)
    ∧ (aiFallbackSignal ⟨some p, some c, some v, some m, ind⟩ rand).decision =
        specDecision (specBuyScore p c v m ind) (specSellScore p c v m ind)
    ∧ (aiFallbackSignal ⟨some p, some c, some v, some m, ind⟩ rand).confidence =
        specConfidence (specBuyScore p c v m ind) (specSellScore p c v m ind) := by
  have hscores : scoresOf ⟨some p, some c, some v, some m, ind⟩ =
      (specBuyScore p c v m ind, specSellScore p c v m ind) := by
    have hnot : p < ind.bollinger_bands.lower → ¬ p > ind.bollinger_bands.upper := by
      intro ha hb'; linarith
    have hrsi : ind.rsi < 30 → ¬ ind.rsi > 70 := by intro ha hb'; linarith
    have hmom : (2 : ℚ)⁻¹ < c → ¬ c < -(2 : ℚ)⁻¹ := by intro ha hb'; linarith
    simp only [scoresOf, specBuyScore, specSellScore, jlt, jgt, jmul, decide_eq_true_eq]
    by_cases h1 : ind.rsi < 30 <;>
    by_cases h2 : ind.rsi > 70 <;>
    by_cases h3 : ind.macd.histogram > 0 <;>
    by_cases h4 : p < ind.bollinger_bands.lower <;>
    by_cases h5 : p > ind.bollinger_bands.upper <;>
    by_cases h6 : (2 : ℚ)⁻¹ < c <;>
    by_cases h7 : c < -(2 : ℚ)⁻¹ <;>
    by_cases h8 : v > m * (5 / 100) <;>
      first
        | (exact absurd h2 (hrsi h1))
        | (exact absurd h5 (hnot h4))
        | (exact absurd h7 (hmom h6))
        | simp [h1, h2, h3, h4, h5, h6, h7, h8]
  refine ⟨hscores, ?_, ?_⟩
  · rw [aiFallback_decision_def, hscores]
    simp [specDecision]
  · rw [aiFallback_confidence_def, hscores]
    simp only [specConfidence, specDecision]
    split_ifs <;> simp <;> ring_nf

/-- C1 witness: the specification's own worked example — RSI 25, positive
MACD histogram, price below the lower band, 1h change +1, volume 10% of
market cap — scores 9:1, decision Buy, confidence 90. -/
theorem C1_witness :
    scoresOf ⟨some 90, some 1, some 10, some 100,
        ⟨25, ⟨0, 0, 3 / 2⟩, ⟨105, 100, 95⟩⟩⟩ = (9, 1)
    ∧ (aiFallbackSignal ⟨some 90, some 1, some 10, some 100,
        ⟨25, ⟨0, 0, 3 / 2⟩, ⟨105, 100, 95⟩⟩⟩ 0).decision = .Buy
    ∧ (aiFallbackSignal ⟨some 90, some 1, some 10, some 100,
        ⟨25, ⟨0, 0, 3 / 2⟩, ⟨105, 100, 95⟩⟩⟩ 0).confidence = 90 := by
  have h := C1_scorer_matches_documented_table 90 1 10 100
    ⟨25, ⟨0, 0, 3 / 2⟩, ⟨105, 100, 95⟩⟩ 0 (by norm_num)
  exact ⟨h.1.trans (by norm_num [specBuyScore, specSellScore]),
    h.2.1.trans (by norm_num [specDecision, specBuyScore, specSellScore]),
    h.2.2.trans (by norm_num [specConfidence, specDecision, specBuyScore, specSellScore, min_def])⟩

/-! ## Claim C3 — determinism of the scorer -/

/-- C3 counterexample.  The claim says two invocations on the same input
return signals equal in every field, including the probabilities.  The
engine draws `Math.random()`: with draws 0 and 1/2 (both legal outputs of
`Math.random()`), the same input yields different pump probabilities. -/
theorem C3_counterexample :
    (0 : ℚ) ≤ 0 ∧ (0 : ℚ) < 1 ∧ (0 : ℚ) ≤ 1 / 2 ∧ (1 / 2 : ℚ) < 1
    ∧ (aiFallbackSignal ⟨some 100, some 0, some 0, some 1000,
        ⟨50, ⟨0, 0, -1⟩, ⟨105, 100, 95⟩⟩⟩ 0).pump_probability ≠
      (aiFallbackSignal ⟨some 100, some 0, some 0, some 1000,
        ⟨50, ⟨0, 0, -1⟩, ⟨105, 100, 95⟩⟩⟩ (1 / 2)).pump_probability := by
  refine ⟨by norm_num, by norm_num, by norm_num, by norm_num, ?_⟩
  rw [aiFallback_pump_def, aiFallback_pump_def, aiFallback_decision_def,
    aiFallback_decision_def]
  norm_num [scoresOf, jlt, jgt, jmul]
  rw [if_neg (by simp : ¬ (Decision.Hold = Decision.Buy)),
    if_neg (by simp : ¬ (Decision.Hold = Decision.Buy))]
  norm_num

/-- C3 (amended): the scorer is deterministic in every field that does not
come from the random draw — decision, confidence, trend, entry, exit, stop
loss and take profit agree across any two invocations on the same input;
pump and dump probabilities depend on the `Math.random()` draw. -/
theorem C3_deterministic_except_probabilities (data : SigData) (r1 r2 : ℚ) :
    (aiFallbackSignal data r1).decision = (aiFallbackSignal data r2).decision
    ∧ (aiFallbackSignal data r1).confidence = (aiFallbackSignal data r2).confidence
    ∧ (aiFallbackSignal data r1).next_5min_trend = (aiFallbackSignal data r2).next_5min_trend
    ∧ (aiFallbackSignal data r1).entry_price = (aiFallbackSignal data r2).entry_price
    ∧ (aiFallbackSignal data r1).exit_price = (aiFallbackSignal data r2).exit_price
    ∧ (aiFallbackSignal data r1).stoploss = (aiFallbackSignal data r2).stoploss
    ∧ (aiFallbackSignal data r1).take_profit = (aiFallbackSignal data r2).take_profit := by
  exact ⟨rfl, rfl, rfl, rfl, rfl, rfl, rfl⟩

/-! ## Claim C10 — the two heuristic implementations -/

/-- C10 counterexample.  The claim says the two fallback implementations
agree on every field.  On the same snapshot (price 90, RSI 25, MACD
histogram 3/2, bands 95/105, 1h change 1, volume 10, market cap 100) both
decide Buy, but v1 reports confidence 75 while the v2 scorer reports 90. -/
theorem C10_counterexample :
    (fallbackHeuristicSignal ⟨"bitcoin", "Bitcoin", "btc", 90, 1, 0, 10, 100⟩
        ⟨25, ⟨0, 0, 3 / 2⟩, ⟨105, 100, 95⟩⟩).decision = .Buy
    ∧ (aiFallbackSignal ⟨some 90, some 1, some 10, some 100,
        ⟨25, ⟨0, 0, 3 / 2⟩, ⟨105, 100, 95⟩⟩⟩ 0).decision = .Buy
    ∧ (fallbackHeuristicSignal ⟨"bitcoin", "Bitcoin", "btc", 90, 1, 0, 10, 100⟩
        ⟨25, ⟨0, 0, 3 / 2⟩, ⟨105, 100, 95⟩⟩).confidence = 75
    ∧ (aiFallbackSignal ⟨some 90, some 1, some 10, some 100,
        ⟨25, ⟨0, 0, 3 / 2⟩, ⟨105, 100, 95⟩⟩⟩ 0).confidence = 90
    ∧ (75 : ℚ) ≠ 90 := by
  refine ⟨by norm_num [fallbackHeuristicSignal], ?_,
    by norm_num [fallbackHeuristicSignal], ?_, by norm_num⟩
  · rw [aiFallback_decision_def]
    norm_num [scoresOf, jlt, jgt, jmul]
  · rw [aiFallback_confidence_def]
    norm_num [scoresOf, jlt, jgt, jmul, min_def]

/-- C10 (amended): the two implementations are not extensionally equal
(they differ in decision policy, confidence and probabilities), but on
every snapshot they agree on `entry_price`, and whenever their decisions
coincide they also agree on stop loss, take profit, exit price and trend
(all four are the same fixed functions of decision and price). -/
theorem C10_partial_agreement (coin : CoinData) (ind : Indicators) (rand : ℚ) :
    (fallbackHeuristicSignal coin ind).entry_price =
      (aiFallbackSignal ⟨some coin.current_price,
        some coin.price_change_percentage_1h_in_currency,
        some coin.total_volume, some coin.market_cap, ind⟩ rand).entry_price
    ∧ ((fallbackHeuristicSignal coin ind).decision =
        (aiFallbackSignal ⟨some coin.current_price,
          some coin.price_change_percentage_1h_in_currency,
          some coin.total_volume, some coin.market_cap, ind⟩ rand).decision →
        (fallbackHeuristicSignal coin ind).stoploss =
          (aiFallbackSignal ⟨some coin.current_price,
            some coin.price_change_percentage_1h_in_currency,
            some coin.total_volume, some coin.market_cap, ind⟩ rand).stoploss
        ∧ (fallbackHeuristicSignal coin ind).take_profit =
          (aiFallbackSignal ⟨some coin.current_price,
            some coin.price_change_percentage_1h_in_currency,
            some coin.total_volume, some coin.market_cap, ind⟩ rand).take_profit
        ∧ (fallbackHeuristicSignal coin ind).exit_price =
          (aiFallbackSignal ⟨some coin.current_price,
            some coin.price_change_percentage_1h_in_currency,
            some coin.total_volume, some coin.market_cap, ind⟩ rand).exit_price
        ∧ (fallbackHeuristicSignal coin ind).next_5min_trend =
          (aiFallbackSignal ⟨some coin.current_price,
            some coin.price_change_percentage_1h_in_currency,
            some coin.total_volume, some coin.market_cap, ind⟩ rand).next_5min_trend) := by
  refine ⟨rfl, ?_⟩
  intro h
  rw [fallback_stoploss_def, fallback_tp_def, fallback_exit_def, fallback_trend_def,
    aiFallback_stoploss_def, aiFallback_tp_def, aiFallback_exit_def, aiFallback_trend_def, h]
  by_cases hd : (aiFallbackSignal ⟨some coin.current_price,
      some coin.price_change_percentage_1h_in_currency,
      some coin.total_volume, some coin.market_cap, ind⟩ rand).decision = .Buy
  · simp [hd, jmul]
  · by_cases hs : (aiFallbackSignal ⟨some coin.current_price,
        some coin.price_change_percentage_1h_in_currency,
        some coin.total_volume, some coin.market_cap, ind⟩ rand).decision = .Sell
    · simp [hd, hs, jmul]
    · simp [hd, hs, jmul]

/-- C10 witness: on a neutral snapshot both implementations decide Hold,
and then their stop loss, take profit, exit price and trend all agree. -/
theorem C10_witness :
    (fallbackHeuristicSignal ⟨"x", "X", "x", 100, 0, 0, 0, 1000⟩
        ⟨50, ⟨0, 0, -1⟩, ⟨105, 100, 95⟩⟩).entry_price =
      (aiFallbackSignal ⟨some 100, some 0, some 0, some 1000,
        ⟨50, ⟨0, 0, -1⟩, ⟨105, 100, 95⟩⟩⟩ 0).entry_price
    ∧ (fallbackHeuristicSignal ⟨"x", "X", "x", 100, 0, 0, 0, 1000⟩
        ⟨50, ⟨0, 0, -1⟩, ⟨105, 100, 95⟩⟩).stoploss =
      (aiFallbackSignal ⟨some 100, some 0, some 0, some 1000,
        ⟨50, ⟨0, 0, -1⟩, ⟨105, 100, 95⟩⟩⟩ 0).stoploss
    ∧ (fallbackHeuristicSignal ⟨"x", "X", "x", 100, 0, 0, 0, 1000⟩
        ⟨50, ⟨0, 0, -1⟩, ⟨105, 100, 95⟩⟩).take_profit =
      (aiFallbackSignal ⟨some 100, some 0, some 0, some 1000,
        ⟨50, ⟨0, 0, -1⟩, ⟨105, 100, 95⟩⟩⟩ 0).take_profit := by
  have h := C10_partial_agreement ⟨"x", "X", "x", 100, 0, 0, 0, 1000⟩
    ⟨50, ⟨0, 0, -1⟩, ⟨105, 100, 95⟩⟩ 0
  have hagree := h.2 (by
    rw [aiFallback_decision_def]
    norm_num [fallbackHeuristicSignal, scoresOf, jlt, jgt, jmul])
  exact ⟨h.1, hagree.1, hagree.2.1⟩

end CryptoDash
